import Mathlib

/-!
Verification of the ChARGe debug-instrumentation layer.

This file embeds, as executable Lean definitions, the behaviour of
`DebugVLLMClient` (src/charge/clients/debug_vllm_client.py) — the
intercepted `create` operation, its fixed-width log formatting with
line wrapping, and `get_response_summary` — together with the default
prompt selection of the example driver
(src/examples/Multi_Server_Experiments/main.py).  Theorems about these
definitions settle the specification claims.
-/

namespace Charge

/-! ## Basic string formatting helpers (Python f-string pieces) -/

-- " " * n
def spaces (n : Nat) : String := String.mk (List.replicate n ' ')

-- Python format spec `<Ws` applied to a str: pad on the right with
-- spaces to width `w` (never truncates).
def padRightS (s : String) (w : Nat) : String :=
  s ++ String.mk (List.replicate (w - s.length) ' ')

-- Python format spec `03d` on a non-negative int: zero-pad to width 3.
def fmt03 (n : Nat) : String :=
  let s := toString n
  String.mk (List.replicate (3 - s.length) '0') ++ s

-- "=" * 98 and "-" * 98, the horizontal rules of the log frames.
def eq98 : String := String.mk (List.replicate 98 '=')
def dash98 : String := String.mk (List.replicate 98 '-')

-- Frame lines shared by the request, response and summary blocks.
def topLine : String := "\n" ++ "╔" ++ eq98 ++ "╗"
def midLine : String := "╠" ++ eq98 ++ "╣"
def botLine : String := "╚" ++ eq98 ++ "╝\n"
def sepDash : String := "╟" ++ dash98 ++ "╢"

/-! ## Python attribute values

`content` and `thought` are dynamically typed attributes; the code
applies `hasattr`, truthiness (`bool(...)`), `isinstance(..., list)` and
`str(...)` to them.  A list value is represented by the `str()` of each
of its items, which is all the logging code ever reads from an item. -/

inductive PyVal where
  | pynone
  | pystr (s : String)
  | pyint (n : Int)
  | pylist (items : List String)
deriving DecidableEq, Repr

-- Python truthiness: bool(None) = bool("") = bool(0) = bool([]) = False.
def PyVal.truthy : PyVal → Bool
  | .pynone => false
  | .pystr s => !s.isEmpty
  | .pyint n => n != 0
  | .pylist items => !items.isEmpty

-- Python str() of a value (str(list) renders items with repr quotes).
def PyVal.pyStr : PyVal → String
  | .pynone => "None"
  | .pystr s => s
  | .pyint n => toString n
  | .pylist items =>
      "[" ++ String.intercalate ", " (items.map fun s => "\x27" ++ s ++ "\x27") ++ "]"

/-! ## The delegate's response (autogen `CreateResult` contract)

`usage` is `Option (Option Usage)`: the outer layer models `hasattr`,
the inner layer a `None` attribute value.  `finish_reason`, when the
attribute exists, is a string, as the delegate's type contract
provides. -/

structure Usage where
  prompt_tokens : Int
  completion_tokens : Int
  total_tokens : Option Int
deriving DecidableEq, Repr

structure Response where
  content : Option PyVal
  thought : Option PyVal
  usage : Option (Option Usage)
  finish_reason : Option String
deriving DecidableEq, Repr

/-! ## Line wrapping (lines 71–96 of debug_vllm_client.py)

`while line: emit line[:w]; line = line[96:]` chunking, realised with a
fuel argument (fuel = initial length always suffices since each step
consumes at least one character for the widths 96 and 91 the client
uses; a width of 0, which would not terminate in Python, is mapped to a
single chunk and never occurs). -/

def wrapChunksF : Nat → Nat → List Char → List (List Char)
  | _, _, [] => []
  | 0, _, l => [l]
  | _, 0, l => [l]
  | fuel + 1, w + 1, c :: cs =>
      (c :: cs).take (w + 1) :: wrapChunksF fuel (w + 1) ((c :: cs).drop (w + 1))

def wrapChunks (w : Nat) (l : List Char) : List (List Char) :=
  wrapChunksF l.length w l

-- Python str.split('\n'): "".split('\n') = [""], empty pieces kept.
def splitNl : List Char → List (List Char)
  | [] => [[]]
  | c :: cs =>
      match splitNl cs with
      | [] => [[c]]
      | line :: rest =>
          if c = '\n' then [] :: line :: rest else (c :: line) :: rest

-- Scalar content / thought rows (lines 79–84 and 93–96): split the
-- str() of the value on newlines, then emit 96-wide padded rows.
def scalarRows (w : Nat) (s : String) : List String :=
  (splitNl s.data).flatMap fun line =>
    (wrapChunks w line).map fun ch => "║ " ++ padRightS (String.mk ch) w ++ " ║"

-- List-content rows (lines 71–78): first row of each item is emitted
-- unconditionally from str(item)[:91]; the remainder is chunked at 91.
def itemsRows (idx : Nat) : List String → List String
  | [] => []
  | item :: rest =>
      ("║ [" ++ toString idx ++ "] " ++ padRightS (String.mk (item.data.take 91)) 91 ++ " ║")
      :: ((wrapChunks 91 (item.data.drop 91)).map
            fun ch => "║     " ++ padRightS (String.mk ch) 91 ++ " ║")
      ++ itemsRows (idx + 1) rest

/-! ## Response log block (lines 60–112) -/

def contentSection : Option PyVal → List String
  | none => []
  | some v =>
      if v.truthy then
        ("║ CONTENT (Final Answer Channel):" ++ spaces 65 ++ "║")
        :: sepDash
        :: (match v with
            | .pylist items => itemsRows 0 items
            | _ => scalarRows 96 v.pyStr)
      else []

def thoughtSection : Option PyVal → List String
  | none => []
  | some v =>
      if v.truthy then
        sepDash
        :: ("║ THOUGHT (Reasoning Channel):" ++ spaces 68 ++ "║")
        :: sepDash
        :: scalarRows 96 v.pyStr
      else []

def usageSection : Option (Option Usage) → List String
  | some (some u) =>
      sepDash
      :: ("║ USAGE STATISTICS:" ++ spaces 80 ++ "║")
      :: ("║   Prompt tokens: " ++ padRightS (toString u.prompt_tokens) 82 ++ " ║")
      :: ("║   Completion tokens: " ++ padRightS (toString u.completion_tokens) 78 ++ " ║")
      :: (match u.total_tokens with
          | some t => ["║   Total tokens: " ++ padRightS (toString t) 83 ++ " ║"]
          | none => [])
  | _ => []

def finishSection : Option String → List String
  | some s => [sepDash, "║ Finish reason: " ++ padRightS s 82 ++ " ║"]
  | none => []

def responseLogLines (cid : Nat) (r : Response) : List String :=
  topLine
  :: ("║ vLLM API CALL #" ++ fmt03 cid ++ " - RESPONSE (CreateResult)" ++ spaces 52 ++ "║")
  :: midLine
  :: (contentSection r.content ++ thoughtSection r.thought
      ++ usageSection r.usage ++ finishSection r.finish_reason ++ [botLine])

/-! ## Interceptor state and the `create` step (lines 23–122) -/

structure CallRecord where
  call_id : Nat
  response : Response
  has_content : Bool
  has_thought : Bool
deriving DecidableEq, Repr

structure ClientState where
  raw_responses : List CallRecord
  call_count : Nat
deriving DecidableEq, Repr

-- __init__ (lines 23–26).
def initState : ClientState := { raw_responses := [], call_count := 0 }

-- 'has_content': hasattr(response, 'content') and bool(response.content)
def hasContentFlag (r : Response) : Bool :=
  match r.content with
  | some v => v.truthy
  | none => false

def hasThoughtFlag (r : Response) : Bool :=
  match r.thought with
  | some v => v.truthy
  | none => false

def mkCallRecord (cid : Nat) (r : Response) : CallRecord :=
  { call_id := cid, response := r
    has_content := hasContentFlag r, has_thought := hasThoughtFlag r }

-- One intercepted call: the counter is incremented first (line 31);
-- the delegate outcome is either a response or a raised exception
-- (line 50); on success the record is appended (lines 114–120) and the
-- delegate's response is returned as is (line 122); on failure nothing
-- after line 50 runs and the exception propagates.
def createStep {ε : Type} (st : ClientState) (delegate : Except ε Response) :
    ClientState × Except ε Response :=
  let cid := st.call_count + 1
  match delegate with
  | .error e => ({ st with call_count := cid }, .error e)
  | .ok r =>
      ({ raw_responses := st.raw_responses ++ [mkCallRecord cid r], call_count := cid },
       .ok r)

def runCalls {ε : Type} (st : ClientState) : List (Except ε Response) → ClientState
  | [] => st
  | d :: ds => runCalls (createStep st d).1 ds

-- The records a run appends when the counter starts at n.
def recordsFrom {ε : Type} (n : Nat) : List (Except ε Response) → List CallRecord
  | [] => []
  | .error _ :: ds => recordsFrom (n + 1) ds
  | .ok r :: ds => mkCallRecord (n + 1) r :: recordsFrom (n + 1) ds

/-! ## Response summary (get_response_summary, lines 124–139) -/

-- Python str() of a bool.
def pyBoolStr (b : Bool) : String := if b then "True" else "False"

def summaryEntryCore (rec : CallRecord) : List String :=
  ["║ Call #" ++ fmt03 rec.call_id ++ ":" ++ spaces 87 ++ "║",
   "║   Has content: " ++ padRightS (pyBoolStr rec.has_content) 84 ++ " ║",
   "║   Has thought: " ++ padRightS (pyBoolStr rec.has_thought) 84 ++ " ║"]

-- for idx, resp_info in enumerate(self.raw_responses, 1): ... emit the
-- three lines, then a separator if idx < len(self.raw_responses).
def summaryEntriesAux (total : Nat) (idx : Nat) : List CallRecord → List String
  | [] => []
  | rec :: rest =>
      summaryEntryCore rec ++ (if idx < total then [sepDash] else [])
        ++ summaryEntriesAux total (idx + 1) rest

def summaryEntries (recs : List CallRecord) : List String :=
  summaryEntriesAux recs.length 1 recs

def summaryLines (st : ClientState) : List String :=
  topLine
  :: ("║ VLLM RESPONSE SUMMARY" ++ spaces 75 ++ "║")
  :: midLine
  :: ("║ Total API calls: " ++ padRightS (toString st.call_count) 82 ++ " ║")
  :: sepDash
  :: (summaryEntries st.raw_responses ++ [botLine])

-- The method only reads the instance state; it returns the (unchanged)
-- state together with the lines it logs.
def get_response_summary (st : ClientState) : ClientState × List String :=
  (st, summaryLines st)

/-! ## Untyped-value logging (Python format semantics, for C8)

The request block (lines 34–47) and the finish-reason line (lines
108–110) apply the f-string format specs `<91s`, `<86s` and `<82s` to
dynamically typed attribute values.  In Python, applying an `s` format
spec to a non-str raises (TypeError for None and list, ValueError for
int); these definitions reproduce that, returning `Except`. -/

inductive PyErr where
  | typeError (msg : String)
  | valueError (msg : String)
deriving DecidableEq, Repr

-- format(v, '<' + str(w) + 's')
def pyFmtS (v : PyVal) (w : Nat) : Except PyErr String :=
  match v with
  | .pystr s => .ok (padRightS s w)
  | .pynone => .error (.typeError "unsupported format string passed to NoneType.__format__")
  | .pyint _ => .error (.valueError "Unknown format code for object of type int")
  | .pylist _ => .error (.typeError "unsupported format string passed to list.__format__")

-- Lines 44–45: for key, value in kwargs['extra_body'].items(): ...
def extraLinesG : List (String × PyVal) → Except PyErr (List String)
  | [] => .ok []
  | kv :: rest => do
      let v ← pyFmtS kv.2 86
      let rs ← extraLinesG rest
      .ok (("║   " ++ kv.1 ++ ": " ++ v ++ " ║") :: rs)

-- Request block (lines 34–47) over arbitrary attribute values.
def requestLogLinesG (cid : Nat) (model : Option PyVal) (nMessages : Nat)
    (extra : Option (List (String × PyVal))) : Except PyErr (List String) := do
  let modelField ← pyFmtS (match model with | some m => m | none => .pystr "N/A") 91
  let extraLines ← match extra with
    | none => pure []
    | some kvs => do
        let rs ← extraLinesG kvs
        pure (("║ Extra body parameters:" ++ spaces 75 ++ "║") :: rs)
  pure (topLine
    :: ("║ vLLM API CALL #" ++ fmt03 cid ++ " - REQUEST" ++ spaces 70 ++ "║")
    :: midLine
    :: ("║ Model: " ++ modelField ++ " ║")
    :: ("║ Messages: " ++ toString nMessages ++ " message(s)" ++ spaces 73 ++ "║")
    :: (extraLines ++ [botLine]))

-- Request block under the contract that the model name and the
-- extra_body values are strings (then no format spec can raise).
def requestLogLines (cid : Nat) (model : Option String) (nMessages : Nat)
    (extra : Option (List (String × String))) : List String :=
  topLine
  :: ("║ vLLM API CALL #" ++ fmt03 cid ++ " - REQUEST" ++ spaces 70 ++ "║")
  :: midLine
  :: ("║ Model: " ++ padRightS (match model with | some m => m | none => "N/A") 91 ++ " ║")
  :: ("║ Messages: " ++ toString nMessages ++ " message(s)" ++ spaces 73 ++ "║")
  :: ((match extra with
       | none => []
       | some kvs =>
           ("║ Extra body parameters:" ++ spaces 75 ++ "║")
           :: kvs.map fun kv => "║   " ++ kv.1 ++ ": " ++ padRightS kv.2 86 ++ " ║")
      ++ [botLine])

-- A response whose finish_reason attribute may hold any value, as C8
-- considers (the delegate's contract makes it a string, `Response`).
structure ResponseG where
  content : Option PyVal
  thought : Option PyVal
  usage : Option (Option Usage)
  finish_reason : Option PyVal
deriving DecidableEq, Repr

-- Lines 107–110 over an arbitrary finish_reason value.
def finishSectionG : Option PyVal → Except PyErr (List String)
  | some v => do
      let s ← pyFmtS v 82
      .ok [sepDash, "║ Finish reason: " ++ s ++ " ║"]
  | none => .ok []

-- Response block (lines 60–112) over an arbitrary finish_reason value.
def responseLogLinesG (cid : Nat) (r : ResponseG) : Except PyErr (List String) := do
  let fin ← finishSectionG r.finish_reason
  pure (topLine
    :: ("║ vLLM API CALL #" ++ fmt03 cid ++ " - RESPONSE (CreateResult)" ++ spaces 52 ++ "║")
    :: midLine
    :: (contentSection r.content ++ thoughtSection r.thought
        ++ usageSection r.usage ++ fin ++ [botLine]))

/-! ## Example driver default prompts
(src/examples/Multi_Server_Experiments/main.py, lines 40–80) -/

def DEFAULT_SYSTEM_PROMPT : String :=
  "You are a world-class chemist. Your task is to generate unique molecules "
  ++ "based on the lead molecule provided by the user. The generated molecules "
  ++ "should be chemically valid and diverse, exploring different chemical spaces "
  ++ "while maintaining some structural similarity to the lead molecule. "
  ++ "Provide the final answer in a clear and concise manner."

def DEFAULT_USER_PROMPT : String :=
  "Generate a unique molecule based on the lead molecule provided. "
  ++ "The lead molecule is CCO. Use SMILES format for the molecules. "
  ++ "Ensure the generated molecule is chemically valid and unique, "
  ++ "using the tools provided. Check the price of the generated molecule "
  ++ "using the molecule pricing tool, and get a cheap molecule. "
  ++ "Once you find a molecule that is unique (not known) and reasonably cheap "
  ++ "(price <= $20), provide your final answer with the SMILES string and price. "
  ++ "Do not continue searching indefinitely."

structure TaskPrompts where
  system_prompt : String
  user_prompt : String
deriving DecidableEq, Repr

-- ChargeMultiServerTask.__init__: `if system_prompt is None: system_prompt
-- = DEFAULT_SYSTEM_PROMPT` (argparse supplies None when a flag is absent).
def chargeMultiServerTaskInit (system_prompt user_prompt : Option String) : TaskPrompts :=
  { system_prompt := match system_prompt with
      | none => DEFAULT_SYSTEM_PROMPT
      | some s => s
    user_prompt := match user_prompt with
      | none => DEFAULT_USER_PROMPT
      | some u => u }

-- The concrete response of the spec's worked example (content "Hello",
-- thought None, usage 10/5/15, finish_reason "stop").
def helloResp : Response :=
  { content := some (.pystr "Hello"), thought := some .pynone
    usage := some (some { prompt_tokens := 10, completion_tokens := 5, total_tokens := some 15 })
    finish_reason := some "stop" }

-- Scenario for the failed-call claims: a fresh interceptor runs some
-- successful calls, then one whose delegate raises, then more successes.
def failRunState {ε : Type} (pre post : List Response) (e : ε) : ClientState :=
  runCalls initState
    ((pre.map fun r => (Except.ok r : Except ε Response))
      ++ Except.error e :: (post.map fun r => (Except.ok r : Except ε Response)))

/-! ## Helper lemmas -/

theorem wrapChunksF_flatten (fuel : Nat) :
    ∀ (w : Nat) (l : List Char), (wrapChunksF fuel w l).flatten = l := by
  induction fuel with
  | zero =>
      intro w l
      cases l <;> simp [wrapChunksF]
  | succ fuel ih =>
      intro w l
      cases l with
      | nil => simp [wrapChunksF]
      | cons c cs =>
          cases w with
          | zero => simp [wrapChunksF]
          | succ w =>
              simp only [wrapChunksF, List.flatten_cons, ih]
              exact List.take_append_drop _ _

theorem wrapChunks_flatten (w : Nat) (l : List Char) : (wrapChunks w l).flatten = l :=
  wrapChunksF_flatten l.length w l

theorem wrapChunksF_length (fuel : Nat) :
    ∀ (w : Nat) (l : List Char), l.length ≤ fuel →
      (wrapChunksF fuel (w + 1) l).length = (l.length + w) / (w + 1) := by
  induction fuel with
  | zero =>
      intro w l h
      have hl : l = [] := List.eq_nil_of_length_eq_zero (Nat.le_zero.mp h)
      subst hl
      have h0 : w / (w + 1) = 0 := Nat.div_eq_of_lt (by omega)
      simp [wrapChunksF, h0]
  | succ fuel ih =>
      intro w l h
      cases l with
      | nil =>
          have h0 : w / (w + 1) = 0 := Nat.div_eq_of_lt (by omega)
          simp [wrapChunksF, h0]
      | cons c cs =>
          have hcs : cs.length ≤ fuel := by
            simp only [List.length_cons] at h
            omega
          have hd : ((c :: cs).drop (w + 1)).length = cs.length - w := by
            simp only [List.length_drop, List.length_cons]
            omega
          have hle : ((c :: cs).drop (w + 1)).length ≤ fuel := by
            rw [hd]; omega
          simp only [wrapChunksF, List.length_cons, ih _ _ hle, hd]
          rcases le_or_lt w cs.length with hcase | hcase
          · rw [Nat.sub_add_cancel hcase]
            have heq : cs.length + 1 + w = cs.length + (w + 1) := by omega
            rw [heq, Nat.add_div_right _ (Nat.succ_pos w)]
          · have h0 : cs.length - w = 0 := by omega
            rw [h0]
            have h1 : (0 + w) / (w + 1) = 0 :=
              Nat.div_eq_of_lt (by omega)
            have h2 : (cs.length + 1 + w) / (w + 1) = 1 := by
              apply Nat.div_eq_of_lt_le <;> omega
            rw [h1, h2]

theorem wrapChunks_length (w : Nat) (l : List Char) :
    (wrapChunks (w + 1) l).length = (l.length + w) / (w + 1) :=
  wrapChunksF_length l.length w l (Nat.le_refl _)

theorem wrapChunks96_length (l : List Char) :
    (wrapChunks 96 l).length = (l.length + 95) / 96 := by
  simpa using wrapChunks_length 95 l

theorem wrapChunks91_length (l : List Char) :
    (wrapChunks 91 l).length = (l.length + 90) / 91 := by
  simpa using wrapChunks_length 90 l

theorem runCalls_call_count {ε : Type} :
    ∀ (outs : List (Except ε Response)) (st : ClientState),
      (runCalls st outs).call_count = st.call_count + outs.length := by
  intro outs
  induction outs with
  | nil => intro st; simp [runCalls]
  | cons d ds ih =>
      intro st
      cases d <;> simp [runCalls, createStep, ih] <;> omega

theorem runCalls_raw_responses {ε : Type} :
    ∀ (outs : List (Except ε Response)) (st : ClientState),
      (runCalls st outs).raw_responses
        = st.raw_responses ++ recordsFrom st.call_count outs := by
  intro outs
  induction outs with
  | nil => intro st; simp [runCalls, recordsFrom]
  | cons d ds ih =>
      intro st
      cases d with
      | error e => simp [runCalls, createStep, ih, recordsFrom]
      | ok r => simp [runCalls, createStep, ih, recordsFrom]

theorem recordsFrom_ok_ids {ε : Type} :
    ∀ (rs : List Response) (n : Nat),
      (recordsFrom n (rs.map fun r => (Except.ok r : Except ε Response))).map
          CallRecord.call_id
        = List.range' (n + 1) rs.length := by
  intro rs
  induction rs with
  | nil => intro n; simp [recordsFrom]
  | cons r rest ih =>
      intro n
      simp [recordsFrom, mkCallRecord, List.range'_succ, ih]

theorem recordsFrom_ok_length {ε : Type} :
    ∀ (rs : List Response) (n : Nat),
      (recordsFrom n (rs.map fun r => (Except.ok r : Except ε Response))).length
        = rs.length := by
  intro rs
  induction rs with
  | nil => intro n; simp [recordsFrom]
  | cons r rest ih => intro n; simp [recordsFrom, ih]

theorem recordsFrom_append {ε : Type} :
    ∀ (xs ys : List (Except ε Response)) (n : Nat),
      recordsFrom n (xs ++ ys)
        = recordsFrom n xs ++ recordsFrom (n + xs.length) ys := by
  intro xs
  induction xs with
  | nil => intro ys n; simp [recordsFrom]
  | cons d ds ih =>
      intro ys n
      have hn : n + 1 + ds.length = n + (ds.length + 1) := by omega
      cases d with
      | error e =>
          simp only [List.cons_append, recordsFrom, List.append_eq, ih, List.length_cons, hn]
      | ok r =>
          simp only [List.cons_append, recordsFrom, List.append_eq, ih, List.length_cons, hn]

theorem summaryEntriesAux_intercalate :
    ∀ (recs : List CallRecord) (k : Nat),
      summaryEntriesAux (k + recs.length) (k + 1) recs
        = List.intercalate [sepDash] (recs.map summaryEntryCore) := by
  intro recs
  induction recs with
  | nil => intro k; simp [summaryEntriesAux, List.intercalate]
  | cons r rest ih =>
      intro k
      cases rest with
      | nil =>
          simp [summaryEntriesAux, List.intercalate, List.intersperse]
      | cons x xs =>
          show summaryEntryCore r
              ++ (if k + 1 < k + (r :: x :: xs).length then [sepDash] else [])
              ++ summaryEntriesAux (k + (r :: x :: xs).length) (k + 1 + 1) (x :: xs)
            = _
          have hlen : k + (r :: x :: xs).length = (k + 1) + (x :: xs).length := by
            simp only [List.length_cons]
            omega
          rw [if_pos (by simp only [List.length_cons]; omega), hlen, ih (k + 1)]
          simp [List.intercalate, List.intersperse_cons_cons]

theorem summaryEntries_intercalate (recs : List CallRecord) :
    summaryEntries recs = List.intercalate [sepDash] (recs.map summaryEntryCore) := by
  have := summaryEntriesAux_intercalate recs 0
  simpa [summaryEntries] using this

theorem extraLinesG_str (kvs : List (String × String)) :
    extraLinesG (kvs.map fun kv => (kv.1, PyVal.pystr kv.2))
      = Except.ok (kvs.map fun kv => "║   " ++ kv.1 ++ ": " ++ padRightS kv.2 86 ++ " ║") := by
  induction kvs with
  | nil => rfl
  | cons kv rest ih =>
      simp only [List.map_cons, extraLinesG, pyFmtS, ih]
      rfl

/-! ## Claim theorems -/

/-- Claim C1: starting from a fresh interceptor, a sequence of N intercepted
calls in which every delegate call returns normally leaves the call counter
at N, and the in-memory history has exactly N entries whose call identifiers
are 1..N in order — assigned densely from 1, strictly increasing, one per
invocation, never reused. -/
theorem c1_call_ids {ε : Type} (rs : List Response) :
    (runCalls initState (rs.map fun r => (Except.ok r : Except ε Response))).call_count
        = rs.length
    ∧ (runCalls initState (rs.map fun r => (Except.ok r : Except ε Response))).raw_responses.length
        = rs.length
    ∧ (runCalls initState (rs.map fun r => (Except.ok r : Except ε Response))).raw_responses.map
          CallRecord.call_id
        = List.range' 1 rs.length := by
  refine ⟨?_, ?_, ?_⟩
  · simp [runCalls_call_count, initState]
  · simp [runCalls_raw_responses, initState, recordsFrom_ok_length]
  · simp [runCalls_raw_responses, initState, recordsFrom_ok_ids]

/-- Claim C3: if the delegate call raises, the interceptor's history list is
unchanged (no record is appended for the failed call) and the exception
propagates to the caller unmodified — the interceptor catches nothing. -/
theorem c3_error_propagation {ε : Type} (st : ClientState) (e : ε) :
    (createStep st (Except.error e)).1.raw_responses = st.raw_responses
    ∧ (createStep st (Except.error e)).2 = Except.error e := by
  constructor <;> simp [createStep]

/-- Claim C4: when the delegate returns normally the interceptor returns the
delegate's result itself, unaltered (value identity in this embedding); on
the spec's worked example (content "Hello", thought None, usage 10/5/15,
finish_reason "stop") the first call stores the record
(call_id 1, has_content true, has_thought false) and hands back the very
response the delegate produced. -/
theorem c4_returns_delegate_result {ε : Type} (st : ClientState) (r : Response) :
    (createStep st (Except.ok r : Except ε Response)).2 = Except.ok r
    ∧ createStep initState (Except.ok helloResp : Except ε Response)
        = ({ raw_responses := [{ call_id := 1, response := helloResp,
                                 has_content := true, has_thought := false }],
             call_count := 1 },
           Except.ok helloResp) := by
  constructor
  · simp [createStep]
  · have h : "Hello".isEmpty = false := rfl
    simp [createStep, initState, mkCallRecord, hasContentFlag, hasThoughtFlag,
          helloResp, PyVal.truthy, h]

/-- Claim C9: the stored record's has_content flag is true exactly when the
response has a content attribute whose value is truthy, and likewise for
has_thought; a present but empty-string or empty-list content gives
has_content = false, the same as an absent attribute. -/
theorem c9_has_flags_truthiness {ε : Type} (st : ClientState) (r : Response) :
    (createStep st (Except.ok r : Except ε Response)).1.raw_responses
        = st.raw_responses
          ++ [{ call_id := st.call_count + 1, response := r,
                has_content := hasContentFlag r, has_thought := hasThoughtFlag r }]
    ∧ (hasContentFlag r = true ↔ ∃ v, r.content = some v ∧ v.truthy = true)
    ∧ (hasThoughtFlag r = true ↔ ∃ v, r.thought = some v ∧ v.truthy = true)
    ∧ hasContentFlag { r with content := some (.pystr "") } = false
    ∧ hasContentFlag { r with content := some (.pylist []) } = false
    ∧ hasContentFlag { r with content := none } = false := by
  refine ⟨by simp [createStep, mkCallRecord], ?_, ?_, ?_, ?_, ?_⟩
  · cases h : r.content with
    | none => simp [hasContentFlag, h]
    | some v => simp [hasContentFlag, h]
  · cases h : r.thought with
    | none => simp [hasThoughtFlag, h]
    | some v => simp [hasThoughtFlag, h]
  · simp [hasContentFlag, PyVal.truthy]
    decide
  · simp [hasContentFlag, PyVal.truthy]
  · simp [hasContentFlag]

/-- Claim C6: invoking the summarizer twice with no intervening calls yields
two identical reports (same total-call-count line, same per-call flag lines)
and mutates neither the counter nor the history; within a report the
separator line appears between consecutive per-call entries and not after
the last one (the entry blocks are interspersed with single separators). -/
theorem c6_summary_idempotent (st : ClientState) :
    (get_response_summary st).1 = st
    ∧ (get_response_summary ((get_response_summary st).1)).2 = (get_response_summary st).2
    ∧ summaryEntries st.raw_responses
        = List.intercalate [sepDash] (st.raw_responses.map summaryEntryCore) :=
  ⟨rfl, rfl, summaryEntries_intercalate st.raw_responses⟩

/-- Claim C7: with neither prompt flag given, the constructed task carries
exactly the fixed chemistry-assistant system prompt and the fixed
SMILES/price-ceiling ($20) user prompt; a user-supplied value for either
flag is used verbatim instead of the corresponding default. -/
theorem c7_default_prompts :
    chargeMultiServerTaskInit none none
      = { system_prompt := "You are a world-class chemist. Your task is to generate unique molecules based on the lead molecule provided by the user. The generated molecules should be chemically valid and diverse, exploring different chemical spaces while maintaining some structural similarity to the lead molecule. Provide the final answer in a clear and concise manner."
          user_prompt := "Generate a unique molecule based on the lead molecule provided. The lead molecule is CCO. Use SMILES format for the molecules. Ensure the generated molecule is chemically valid and unique, using the tools provided. Check the price of the generated molecule using the molecule pricing tool, and get a cheap molecule. Once you find a molecule that is unique (not known) and reasonably cheap (price <= $20), provide your final answer with the SMILES string and price. Do not continue searching indefinitely." }
    ∧ (∀ s u : String, chargeMultiServerTaskInit (some s) (some u)
        = { system_prompt := s, user_prompt := u })
    ∧ (∀ s : String, chargeMultiServerTaskInit (some s) none
        = { system_prompt := s, user_prompt := DEFAULT_USER_PROMPT })
    ∧ (∀ u : String, chargeMultiServerTaskInit none (some u)
        = { system_prompt := DEFAULT_SYSTEM_PROMPT, user_prompt := u }) := by
  refine ⟨?_, fun s u => rfl, fun s => rfl, fun u => rfl⟩
  simp [chargeMultiServerTaskInit, DEFAULT_SYSTEM_PROMPT, DEFAULT_USER_PROMPT]

/-- Claim C5: for a response with content = None and thought = None the
response log block contains no content section and no thought section, yet
still contains the usage-statistics section (usage being present) and the
finish-reason section (the attribute existing), whatever their values. -/
theorem c5_none_content_thought_sections (cid : Nat) (pt ct : Int) (tt : Option Int)
    (fr : String) :
    responseLogLines cid
        { content := some .pynone, thought := some .pynone,
          usage := some (some { prompt_tokens := pt, completion_tokens := ct,
                                total_tokens := tt }),
          finish_reason := some fr }
      = topLine
        :: ("║ vLLM API CALL #" ++ fmt03 cid ++ " - RESPONSE (CreateResult)"
              ++ spaces 52 ++ "║")
        :: midLine
        :: sepDash
        :: ("║ USAGE STATISTICS:" ++ spaces 80 ++ "║")
        :: ("║   Prompt tokens: " ++ padRightS (toString pt) 82 ++ " ║")
        :: ("║   Completion tokens: " ++ padRightS (toString ct) 78 ++ " ║")
        :: ((match tt with
             | some t => ["║   Total tokens: " ++ padRightS (toString t) 83 ++ " ║"]
             | none => [])
            ++ sepDash
            :: ("║ Finish reason: " ++ padRightS fr 82 ++ " ║")
            :: [botLine]) := by
  cases tt <;>
    simp [responseLogLines, contentSection, thoughtSection, usageSection, finishSection,
          PyVal.truthy]

/-- Claim C10: the counter is incremented before the delegate is awaited, so
a delegate call that raises still consumes a call identifier: after a run
containing a failure the counter strictly exceeds the history length, the
failed call's identifier never appears in the history (later successes get
later identifiers, leaving a gap), and the summary's total-call line reports
the counter — failed call included — while per-call entries come only from
the stored records. -/
theorem c10_failed_call_gap {ε : Type} (pre post : List Response) (e : ε) :
    (failRunState pre post e).call_count = pre.length + 1 + post.length
    ∧ (failRunState pre post e).raw_responses.length = pre.length + post.length
    ∧ (failRunState pre post e).raw_responses.length < (failRunState pre post e).call_count
    ∧ (failRunState pre post e).raw_responses.map CallRecord.call_id
        = List.range' 1 pre.length ++ List.range' (pre.length + 2) post.length
    ∧ (pre.length + 1) ∉ (failRunState pre post e).raw_responses.map CallRecord.call_id
    ∧ ("║ Total API calls: "
          ++ padRightS (toString (pre.length + 1 + post.length)) 82 ++ " ║")
        ∈ summaryLines (failRunState pre post e) := by
  have hc : (failRunState pre post e).call_count = pre.length + 1 + post.length := by
    simp [failRunState, runCalls_call_count, initState]
    omega
  have harr : pre.length + 1 + 1 = pre.length + 2 := by omega
  have hids : (failRunState pre post e).raw_responses.map CallRecord.call_id
      = List.range' 1 pre.length ++ List.range' (pre.length + 2) post.length := by
    simp [failRunState, runCalls_raw_responses, initState, recordsFrom_append,
          recordsFrom, recordsFrom_ok_ids, harr]
  have hlen : (failRunState pre post e).raw_responses.length
      = pre.length + post.length := by
    have h := congrArg List.length hids
    simpa using h
  refine ⟨hc, hlen, ?_, hids, ?_, ?_⟩
  · rw [hc, hlen]
    omega
  · rw [hids]
    simp only [List.mem_append, List.mem_range'_1]
    omega
  · rw [show ("║ Total API calls: "
          ++ padRightS (toString (pre.length + 1 + post.length)) 82 ++ " ║")
        = ("║ Total API calls: "
          ++ padRightS (toString (failRunState pre post e).call_count) 82 ++ " ║") by rw [hc]]
    simp [summaryLines]

/-- Claim C2 counterexample: wrapping the scalar content "a\n\nb" emits only
two rows — the empty middle line produced by the newline split emits zero
rows, not the claimed minimum of one row for an empty line — and a list item
containing a newline is not split on it: the item "x\ny" is emitted as a
single row containing the newline rather than as two rows. -/
theorem c2_wrap_counterexample :
    scalarRows 96 "a\n\nb"
      = ["║ " ++ padRightS "a" 96 ++ " ║", "║ " ++ padRightS "b" 96 ++ " ║"]
    ∧ ((splitNl ("a\n\nb").data).map fun line => (wrapChunks 96 line).length) = [1, 0, 1]
    ∧ itemsRows 0 ["x\ny"] = ["║ [0] " ++ padRightS "x\ny" 91 ++ " ║"] := by
  refine ⟨?_, ?_, ?_⟩ <;> rfl

/-- Claim C2 (amended): scalar content and thought blocks are split on
explicit newlines, and each resulting line of length L emits exactly
ceil(L/96) = (L+95)/96 padded rows — so an empty line emits zero rows, not
one; a list item is not split on newlines and emits max(1, ceil(L/91)) rows
(one unconditional first row from its first 91 characters plus continuation
rows); concatenating the unpadded chunk contents reconstructs each line, and
each item's first chunk followed by its continuation chunks reconstructs the
item, exactly. -/
theorem c2_wrap_amended (s item : String) :
    ((splitNl s.data).map fun line =>
        ((wrapChunks 96 line).map
            fun ch => "║ " ++ padRightS (String.mk ch) 96 ++ " ║").length)
      = ((splitNl s.data).map fun line => (line.length + 95) / 96)
    ∧ ((splitNl s.data).map fun line => (wrapChunks 96 line).flatten) = splitNl s.data
    ∧ (itemsRows 0 [item]).length = max 1 ((item.length + 90) / 91)
    ∧ String.mk (item.data.take 91 ++ (wrapChunks 91 (item.data.drop 91)).flatten)
        = item := by
  refine ⟨?_, ?_, ?_, ?_⟩
  · simp [wrapChunks96_length]
  · simp [wrapChunks_flatten]
  · have hsl : item.length = item.data.length := rfl
    have hlen : (item.data.drop 91).length = item.data.length - 91 := by
      simp [List.length_drop]
    simp only [itemsRows, List.length_cons, List.length_append, List.length_map,
               List.length_nil, wrapChunks91_length, hlen, hsl]
    omega
  · rw [wrapChunks_flatten, List.take_append_drop]

/-- Claim C8 counterexample: a response whose finish_reason attribute exists
with the non-string value None — an input the claim explicitly includes —
makes the response logging raise a TypeError at the fixed-width `s` format
spec instead of completing without error. -/
theorem c8_logging_counterexample :
    responseLogLinesG 1
        { content := none, thought := none, usage := none, finish_reason := some .pynone }
      = Except.error
          (.typeError "unsupported format string passed to NoneType.__format__") := by
  rfl

/-- Claim C8 (amended): the logging layer raises no exception on any request
or response whose formatted attribute values satisfy the delegate and client
contracts — model name, extra_body values and finish_reason strings, usage
token counts integers: on such inputs the untyped (Python format semantics)
logging succeeds and produces exactly the typed model's lines. A present
non-string finish_reason (such as None) or a non-string extra_body value,
however, makes the corresponding f-string raise, which is not caught. -/
theorem c8_logging_total_for_contract (cid : Nat) (model : Option String) (n : Nat)
    (extras : Option (List (String × String))) (r : Response) :
    requestLogLinesG cid (model.map PyVal.pystr) n
        (extras.map fun kvs => kvs.map fun kv => (kv.1, PyVal.pystr kv.2))
      = Except.ok (requestLogLines cid model n extras)
    ∧ responseLogLinesG cid
        { content := r.content, thought := r.thought, usage := r.usage,
          finish_reason := r.finish_reason.map PyVal.pystr }
      = Except.ok (responseLogLines cid r) := by
  constructor
  · cases model <;> cases extras <;>
      simp only [Option.map_none', Option.map_some', extraLinesG_str,
                 requestLogLinesG, requestLogLines, pyFmtS] <;> rfl
  · cases h : r.finish_reason with
    | none =>
        simp only [responseLogLinesG, responseLogLines, finishSectionG, finishSection,
                   Option.map_none', h]
        rfl
    | some fr =>
        simp only [responseLogLinesG, responseLogLines, finishSectionG, finishSection,
                   Option.map_some', h, pyFmtS]
        rfl

end Charge
